import Mathlib

/-!
# Solar thermal sizing calculator (`src/App.js`)

Shallow embedding of the function `calculate` of the component
`SolarThermalCalculator`, the only part of the repository that carries
domain logic.

Modelling conventions.

* A JavaScript number is modelled by an exact rational (`ℚ`): the constants
  `0.75` and `0.7` are the rationals 3/4 and 7/10 and `*`, `/` are exact.
  IEEE-754 rounding, `NaN` and the infinities are outside the model.
  Theorems about concrete values therefore state a quantity that passes
  through `0.75` or `0.7` only up to the quoted number of decimals
  (`roundDec`): a double product such as `666400 * 0.7` is within one unit
  in the last place of the rational one, not equal to it.
* `parseInt` yields an integer, so the apartment count is an `ℤ`;
  `parseFloat` yields a number, so the three other inputs are `ℚ`.  The
  inputs of the model are the four parsed values.
* `Math.ceil` and `Math.floor` yield integers; the three panel counts and
  the storage volume (an integer times 50) are kept in `ℤ` and cast back to
  `ℚ` where the source multiplies them with other numbers.
* `setResults({...})` is modelled by returning the record.
-/

namespace SolarThermal

/-! ## Constants (App.js, lines 4-12) -/

/-- BTU to heat one gallon of water. -/
def BTU_PER_GAL : ℚ := 833
/-- Gallons per bedroom per day. -/
def WATER_USE_PER_BED : ℚ := 40
/-- BTU per day per panel. -/
def PANEL_BTU_PER_DAY : ℚ := 40000
/-- Gallons of storage per panel. -/
def PANEL_STORAGE_GAL : ℤ := 50
/-- Square feet per panel. -/
def PANEL_AREA_FT2 : ℚ := 32
/-- BTU per therm. -/
def THERM_BTU : ℚ := 100000
/-- Boiler efficiency. -/
def BOILER_EFF : ℚ := 0.75
/-- The system covers 70% of demand. -/
def SOLAR_FRACTION : ℚ := 0.7

/-! ## The result record (App.js, lines 48-61) -/

/-- The object handed to `setResults`. -/
structure Results where
  dailyGal : ℚ
  dailyBTU : ℚ
  boilerGasInput : ℚ
  dailyTherms : ℚ
  annualTherms : ℚ
  annualGasCost : ℚ
  solarBTUperDay : ℚ
  neededPanels : ℤ
  maxPanels : ℤ
  panelsToInstall : ℤ
  storageGallons : ℤ
  annualDollarSaved : ℚ
deriving DecidableEq

/-! ## `calculate` (App.js, lines 21-62) -/

/-- The body of `calculate`, statement by statement, on the parsed inputs
`numApt`, `avgBed`, `roofFt2`, `thermCost`. -/
def calculate (numApt : ℤ) (avgBed roofFt2 thermCost : ℚ) : Results :=
  -- Total hot water demand and BTU
  let dailyGal : ℚ := (numApt : ℚ) * avgBed * WATER_USE_PER_BED
  let dailyBTU : ℚ := dailyGal * BTU_PER_GAL
  let boilerGasInput : ℚ := dailyBTU / BOILER_EFF
  let dailyTherms : ℚ := boilerGasInput / THERM_BTU
  let annualTherms : ℚ := dailyTherms * 365
  let annualGasCost : ℚ := annualTherms * thermCost
  -- Solar covers only 70% of daily load
  let solarBTUperDay : ℚ := dailyBTU * SOLAR_FRACTION
  let neededPanels : ℤ := Int.ceil (solarBTUperDay / PANEL_BTU_PER_DAY)
  let maxPanels : ℤ := Int.floor (roofFt2 / PANEL_AREA_FT2)
  let panelsToInstall : ℤ := min neededPanels maxPanels
  let storageGallons : ℤ := panelsToInstall * PANEL_STORAGE_GAL
  -- Annual dollar saved by solar
  let annualSolarBTU : ℚ := (panelsToInstall : ℚ) * PANEL_BTU_PER_DAY * 365
  let annualSolarTherms : ℚ := annualSolarBTU / THERM_BTU
  let annualDollarSaved : ℚ := annualSolarTherms * thermCost
  { dailyGal, dailyBTU, boilerGasInput, dailyTherms, annualTherms,
    annualGasCost, solarBTUperDay, neededPanels, maxPanels, panelsToInstall,
    storageGallons, annualDollarSaved }

/-! ## The ranges enforced by the form (App.js, lines 83-134) -/

/-- The `min`/`max` attributes of the four `<input type="number">` fields:
apartments in 1..500, bedrooms in 0.5..10, roof area in 32..20000, gas cost
in 0.1..10. -/
def ValidInput (numApt : ℤ) (avgBed roofFt2 thermCost : ℚ) : Prop :=
  (1 ≤ numApt ∧ numApt ≤ 500) ∧ (0.5 ≤ avgBed ∧ avgBed ≤ 10) ∧
    (32 ≤ roofFt2 ∧ roofFt2 ≤ 20000) ∧ (0.1 ≤ thermCost ∧ thermCost ≤ 10)

instance (numApt : ℤ) (avgBed roofFt2 thermCost : ℚ) :
    Decidable (ValidInput numApt avgBed roofFt2 thermCost) := by
  unfold ValidInput; infer_instance

/-! ## The reference chain of the specification (section 4.1) -/

/-- The `SizingResult` record of the specification, with its field names. -/
structure SizingResult where
  dailyHotWaterGallons : ℚ
  dailyHeatLoadBTU : ℚ
  dailyBoilerGasInputBTU : ℚ
  dailyThermsConsumed : ℚ
  annualThermsConsumed : ℚ
  annualBaselineGasCost : ℚ
  dailySolarCoveredBTU : ℚ
  panelsNeededForSolarFraction : ℤ
  panelsFittingRoof : ℤ
  panelsToInstall : ℤ
  thermalStorageGallons : ℤ
  annualDollarSaved : ℚ
deriving DecidableEq

/-- The eleven steps of the algorithm as the specification words them, with
the literal constants 833, 40, 40000, 50, 32, 100000, 0.75 and 0.70. -/
def specChain (apartmentCount : ℤ)
    (avgBedroomsPerApartment usableRoofAreaSqFt gasCostPerTherm : ℚ) : SizingResult :=
  let gal : ℚ := (apartmentCount : ℚ) * avgBedroomsPerApartment * 40
  let load : ℚ := gal * 833
  let gasIn : ℚ := load / 0.75
  let therms : ℚ := gasIn / 100000
  let yearTherms : ℚ := therms * 365
  let solar : ℚ := load * 0.70
  let needed : ℤ := Int.ceil (solar / 40000)
  let fitting : ℤ := Int.floor (usableRoofAreaSqFt / 32)
  let install : ℤ := min needed fitting
  { dailyHotWaterGallons := gal
    dailyHeatLoadBTU := load
    dailyBoilerGasInputBTU := gasIn
    dailyThermsConsumed := therms
    annualThermsConsumed := yearTherms
    annualBaselineGasCost := yearTherms * gasCostPerTherm
    dailySolarCoveredBTU := solar
    panelsNeededForSolarFraction := needed
    panelsFittingRoof := fitting
    panelsToInstall := install
    thermalStorageGallons := install * 50
    annualDollarSaved := ((install : ℚ) * 40000 * 365 / 100000) * gasCostPerTherm }

/-- Rounding of a rational to `d` decimals (half up), used to compare a
computed value with a figure quoted to `d` decimals. -/
def roundDec (d : ℕ) (x : ℚ) : ℚ := (Int.floor (x * 10 ^ d + 1 / 2) : ℚ) / 10 ^ d

/-! ## Auxiliary facts about the chain -/

/-- Scenario A needs twelve panels. -/
theorem needed_scenarioA (roofFt2 thermCost : ℚ) :
    (calculate 10 2 roofFt2 thermCost).neededPanels = 12 := by
  simp only [calculate, WATER_USE_PER_BED, BTU_PER_GAL, SOLAR_FRACTION, PANEL_BTU_PER_DAY]
  rw [Int.ceil_eq_iff]
  norm_num

/-- A roof of 1000 square feet takes 31 panels. -/
theorem max_roof1000 (numApt : ℤ) (avgBed thermCost : ℚ) :
    (calculate numApt avgBed 1000 thermCost).maxPanels = 31 := by
  simp only [calculate, PANEL_AREA_FT2]
  rw [Int.floor_eq_iff]
  norm_num

/-- A roof of 300 square feet takes 9 panels. -/
theorem max_roof300 (numApt : ℤ) (avgBed thermCost : ℚ) :
    (calculate numApt avgBed 300 thermCost).maxPanels = 9 := by
  simp only [calculate, PANEL_AREA_FT2]
  rw [Int.floor_eq_iff]
  norm_num

/-- The installed count is the minimum of the two counts of the record. -/
theorem install_eq_min (numApt : ℤ) (avgBed roofFt2 thermCost : ℚ) :
    (calculate numApt avgBed roofFt2 thermCost).panelsToInstall
      = min (calculate numApt avgBed roofFt2 thermCost).neededPanels
          (calculate numApt avgBed roofFt2 thermCost).maxPanels := rfl

/-- Storage is fifty gallons per installed panel. -/
theorem storage_eq (numApt : ℤ) (avgBed roofFt2 thermCost : ℚ) :
    (calculate numApt avgBed roofFt2 thermCost).storageGallons
      = (calculate numApt avgBed roofFt2 thermCost).panelsToInstall * 50 := rfl

/-- Savings are the therms delivered by the installed panels in a year, times
the gas price. -/
theorem saved_eq (numApt : ℤ) (avgBed roofFt2 thermCost : ℚ) :
    (calculate numApt avgBed roofFt2 thermCost).annualDollarSaved
      = (((calculate numApt avgBed roofFt2 thermCost).panelsToInstall : ℚ)
          * 40000 * 365 / 100000) * thermCost := rfl

/-! ## C1: the record equals the reference chain -/

/-- C1: for every input, each of the twelve fields computed by `calculate`
equals the corresponding field of the reference chain of the specification
(constants 833, 40, 40000, 50, 32, 100000, 0.75, 0.70), and the savings are
computed from the panels actually installed. -/
theorem C1_calculate_eq_specChain (numApt : ℤ) (avgBed roofFt2 thermCost : ℚ) :
    (calculate numApt avgBed roofFt2 thermCost).dailyGal
        = (specChain numApt avgBed roofFt2 thermCost).dailyHotWaterGallons ∧
    (calculate numApt avgBed roofFt2 thermCost).dailyBTU
        = (specChain numApt avgBed roofFt2 thermCost).dailyHeatLoadBTU ∧
    (calculate numApt avgBed roofFt2 thermCost).boilerGasInput
        = (specChain numApt avgBed roofFt2 thermCost).dailyBoilerGasInputBTU ∧
    (calculate numApt avgBed roofFt2 thermCost).dailyTherms
        = (specChain numApt avgBed roofFt2 thermCost).dailyThermsConsumed ∧
    (calculate numApt avgBed roofFt2 thermCost).annualTherms
        = (specChain numApt avgBed roofFt2 thermCost).annualThermsConsumed ∧
    (calculate numApt avgBed roofFt2 thermCost).annualGasCost
        = (specChain numApt avgBed roofFt2 thermCost).annualBaselineGasCost ∧
    (calculate numApt avgBed roofFt2 thermCost).solarBTUperDay
        = (specChain numApt avgBed roofFt2 thermCost).dailySolarCoveredBTU ∧
    (calculate numApt avgBed roofFt2 thermCost).neededPanels
        = (specChain numApt avgBed roofFt2 thermCost).panelsNeededForSolarFraction ∧
    (calculate numApt avgBed roofFt2 thermCost).maxPanels
        = (specChain numApt avgBed roofFt2 thermCost).panelsFittingRoof ∧
    (calculate numApt avgBed roofFt2 thermCost).panelsToInstall
        = (specChain numApt avgBed roofFt2 thermCost).panelsToInstall ∧
    (calculate numApt avgBed roofFt2 thermCost).storageGallons
        = (specChain numApt avgBed roofFt2 thermCost).thermalStorageGallons ∧
    (calculate numApt avgBed roofFt2 thermCost).annualDollarSaved
        = (specChain numApt avgBed roofFt2 thermCost).annualDollarSaved ∧
    (calculate numApt avgBed roofFt2 thermCost).annualDollarSaved
        = (((calculate numApt avgBed roofFt2 thermCost).panelsToInstall : ℚ)
            * 40000 * 365 / 100000) * thermCost := by
  have h7 : (0.70 : ℚ) = 0.7 := by norm_num
  simp only [calculate, specChain, BTU_PER_GAL, WATER_USE_PER_BED, PANEL_BTU_PER_DAY,
    PANEL_STORAGE_GAL, PANEL_AREA_FT2, THERM_BTU, BOILER_EFF, SOLAR_FRACTION, h7]
  simp

/-! ## C3: the installed count is the minimum -/

/-- C3: for every input, `panelsToInstall` is the minimum of `neededPanels`
and `maxPanels`; it exceeds neither and equals one of the two. -/
theorem C3_panelsToInstall_min (numApt : ℤ) (avgBed roofFt2 thermCost : ℚ) :
    (calculate numApt avgBed roofFt2 thermCost).panelsToInstall
        = min (calculate numApt avgBed roofFt2 thermCost).neededPanels
            (calculate numApt avgBed roofFt2 thermCost).maxPanels ∧
    (calculate numApt avgBed roofFt2 thermCost).panelsToInstall
        ≤ (calculate numApt avgBed roofFt2 thermCost).neededPanels ∧
    (calculate numApt avgBed roofFt2 thermCost).panelsToInstall
        ≤ (calculate numApt avgBed roofFt2 thermCost).maxPanels ∧
    ((calculate numApt avgBed roofFt2 thermCost).panelsToInstall
        = (calculate numApt avgBed roofFt2 thermCost).neededPanels ∨
     (calculate numApt avgBed roofFt2 thermCost).panelsToInstall
        = (calculate numApt avgBed roofFt2 thermCost).maxPanels) := by
  rw [install_eq_min]
  exact ⟨rfl, min_le_left _ _, min_le_right _ _, min_choice _ _⟩

/-! ## C4: scenario A -/

/-- C4: scenario A (10 apartments, 2 bedrooms, 1000 square feet, 2.50 per
therm) yields 800 gallons, 666400 BTU, a boiler input of 888533.33 to two
decimals, 8.885 daily therms to three decimals, 3243.15 annual therms and a
baseline cost of 8107.87 to two decimals, 466480 solar BTU to the unit, 12
panels needed, 31 fitting, 12 installed, 600 gallons of storage and 4380
saved.  The five quantities that pass through a division by 0.75 or a product
with 0.7 are compared after rounding to the quoted number of decimals. -/
theorem C4_scenarioA :
    (calculate 10 2 1000 2.5).dailyGal = 800 ∧
    (calculate 10 2 1000 2.5).dailyBTU = 666400 ∧
    roundDec 2 (calculate 10 2 1000 2.5).boilerGasInput = 888533.33 ∧
    roundDec 3 (calculate 10 2 1000 2.5).dailyTherms = 8.885 ∧
    roundDec 2 (calculate 10 2 1000 2.5).annualTherms = 3243.15 ∧
    roundDec 2 (calculate 10 2 1000 2.5).annualGasCost = 8107.87 ∧
    roundDec 0 (calculate 10 2 1000 2.5).solarBTUperDay = 466480 ∧
    (calculate 10 2 1000 2.5).neededPanels = 12 ∧
    (calculate 10 2 1000 2.5).maxPanels = 31 ∧
    (calculate 10 2 1000 2.5).panelsToInstall = 12 ∧
    (calculate 10 2 1000 2.5).storageGallons = 600 ∧
    (calculate 10 2 1000 2.5).annualDollarSaved = 4380 ∧
    roundDec 2 (calculate 10 2 1000 2.5).annualDollarSaved = 4380.00 := by
  have hp : (calculate 10 2 1000 2.5).panelsToInstall = 12 := by
    rw [install_eq_min, needed_scenarioA, max_roof1000]; rfl
  have hfl : ∀ (x : ℚ) (z : ℤ), (z : ℚ) ≤ x → x < z + 1 → Int.floor x = z :=
    fun x z h1 h2 => Int.floor_eq_iff.mpr ⟨h1, h2⟩
  refine ⟨?_, ?_, ?_, ?_, ?_, ?_, ?_, needed_scenarioA _ _, max_roof1000 _ _ _, hp, ?_, ?_, ?_⟩
  · norm_num [calculate, WATER_USE_PER_BED]
  · norm_num [calculate, WATER_USE_PER_BED, BTU_PER_GAL]
  · have h : (calculate 10 2 1000 2.5).boilerGasInput = 2665600 / 3 := by
      norm_num [calculate, WATER_USE_PER_BED, BTU_PER_GAL, BOILER_EFF]
    rw [roundDec, h, hfl _ 88853333 (by norm_num) (by norm_num)]
    norm_num
  · have h : (calculate 10 2 1000 2.5).dailyTherms = 3332 / 375 := by
      norm_num [calculate, WATER_USE_PER_BED, BTU_PER_GAL, BOILER_EFF, THERM_BTU]
    rw [roundDec, h, hfl _ 8885 (by norm_num) (by norm_num)]
    norm_num
  · have h : (calculate 10 2 1000 2.5).annualTherms = 243236 / 75 := by
      norm_num [calculate, WATER_USE_PER_BED, BTU_PER_GAL, BOILER_EFF, THERM_BTU]
    rw [roundDec, h, hfl _ 324315 (by norm_num) (by norm_num)]
    norm_num
  · have h : (calculate 10 2 1000 2.5).annualGasCost = 121618 / 15 := by
      norm_num [calculate, WATER_USE_PER_BED, BTU_PER_GAL, BOILER_EFF, THERM_BTU]
    rw [roundDec, h, hfl _ 810787 (by norm_num) (by norm_num)]
    norm_num
  · have h : (calculate 10 2 1000 2.5).solarBTUperDay = 466480 := by
      norm_num [calculate, WATER_USE_PER_BED, BTU_PER_GAL, SOLAR_FRACTION]
    rw [roundDec, h, hfl _ 466480 (by norm_num) (by norm_num)]
    norm_num
  · rw [storage_eq, hp]; rfl
  · rw [saved_eq, hp]; norm_num
  · rw [roundDec, saved_eq, hp, hfl _ 438000 (by norm_num) (by norm_num)]
    norm_num

/-! ## C2: savings against the baseline cost -/

/-- C2 fails as stated: the smallest input accepted by the form (1 apartment,
0.5 bedroom, 32 square feet, 1 per therm) installs the one panel it needs and
reports 146 saved against a baseline gas cost of 60809/750 (about 81.08). -/
theorem C2_counterexample :
    ValidInput 1 0.5 32 1 ∧
    (calculate 1 0.5 32 1).neededPanels = 1 ∧
    (calculate 1 0.5 32 1).panelsToInstall = 1 ∧
    (calculate 1 0.5 32 1).panelsToInstall ≤ (calculate 1 0.5 32 1).neededPanels ∧
    (calculate 1 0.5 32 1).annualDollarSaved = 146 ∧
    (calculate 1 0.5 32 1).annualGasCost = 60809 / 750 ∧
    ¬ (calculate 1 0.5 32 1).annualDollarSaved ≤ (calculate 1 0.5 32 1).annualGasCost := by
  have hn : (calculate 1 0.5 32 1).neededPanels = 1 := by
    simp only [calculate, WATER_USE_PER_BED, BTU_PER_GAL, SOLAR_FRACTION, PANEL_BTU_PER_DAY]
    rw [Int.ceil_eq_iff]
    norm_num
  have hm : (calculate 1 0.5 32 1).maxPanels = 1 := by
    simp only [calculate, PANEL_AREA_FT2]
    rw [Int.floor_eq_iff]
    norm_num
  have hp : (calculate 1 0.5 32 1).panelsToInstall = 1 := by
    rw [install_eq_min, hn, hm]; rfl
  have hs : (calculate 1 0.5 32 1).annualDollarSaved = 146 := by
    rw [saved_eq, hp]; norm_num
  have hc : (calculate 1 0.5 32 1).annualGasCost = 60809 / 750 := by
    norm_num [calculate, WATER_USE_PER_BED, BTU_PER_GAL, BOILER_EFF, THERM_BTU]
  refine ⟨?_, hn, hp, ?_, hs, hc, ?_⟩
  · unfold ValidInput; norm_num
  · rw [hp, hn]
  · rw [hs, hc]; norm_num

/-- C2, amended: for every input with a non-negative gas price whose daily
heat load is at least 60000 BTU, the reported savings do not exceed the
baseline gas cost. -/
theorem C2_saved_le_baseline (numApt : ℤ) (avgBed roofFt2 thermCost : ℚ)
    (hc : 0 ≤ thermCost)
    (hload : 60000 ≤ (calculate numApt avgBed roofFt2 thermCost).dailyBTU) :
    (calculate numApt avgBed roofFt2 thermCost).annualDollarSaved
      ≤ (calculate numApt avgBed roofFt2 thermCost).annualGasCost := by
  simp only [calculate, WATER_USE_PER_BED, BTU_PER_GAL, SOLAR_FRACTION, PANEL_BTU_PER_DAY,
    PANEL_AREA_FT2, THERM_BTU, BOILER_EFF] at hload ⊢
  set D : ℚ := (numApt : ℚ) * avgBed * 40 * 833 with hD
  set n : ℤ := Int.ceil (D * 0.7 / 40000) with hn
  set m : ℤ := Int.floor (roofFt2 / 32) with hm
  have hpn : ((min n m : ℤ) : ℚ) ≤ (n : ℚ) := by exact_mod_cast min_le_left n m
  have key : (n : ℚ) * 40000 ≤ D / 0.75 := by
    by_cases h2 : D * 0.7 / 40000 ≤ 2
    · have : n ≤ 2 := Int.ceil_le.mpr (by exact_mod_cast h2)
      have hn2 : (n : ℚ) ≤ 2 := by exact_mod_cast this
      norm_num
      linarith
    · have hlt : (n : ℚ) < D * 0.7 / 40000 + 1 := Int.ceil_lt_add_one _
      norm_num at h2 hlt ⊢
      linarith
  have h1 : ((min n m : ℤ) : ℚ) * 40000 * 365 / 100000 ≤ D / 0.75 / 100000 * 365 := by
    have : ((min n m : ℤ) : ℚ) * 40000 ≤ D / 0.75 := le_trans (by linarith) key
    linarith
  exact mul_le_mul_of_nonneg_right h1 hc

/-- C2, amended, at scenario A (daily heat load 666400 BTU). -/
theorem C2_saved_le_baseline_witness :
    (0 : ℚ) ≤ 2.5 ∧ 60000 ≤ (calculate 10 2 1000 2.5).dailyBTU ∧
    (calculate 10 2 1000 2.5).annualDollarSaved ≤ (calculate 10 2 1000 2.5).annualGasCost :=
  ⟨by norm_num, by norm_num [calculate, WATER_USE_PER_BED, BTU_PER_GAL],
   C2_saved_le_baseline 10 2 1000 2.5 (by norm_num)
     (by norm_num [calculate, WATER_USE_PER_BED, BTU_PER_GAL])⟩

/-! ## C5: capping by the roof -/

/-- C5: for every input whose roof takes fewer panels than are needed,
`calculate` (a total function) installs exactly the number that fits, and the
storage and the savings are computed from that capped count. -/
theorem C5_roof_capping (numApt : ℤ) (avgBed roofFt2 thermCost : ℚ)
    (h : (calculate numApt avgBed roofFt2 thermCost).maxPanels
          < (calculate numApt avgBed roofFt2 thermCost).neededPanels) :
    (calculate numApt avgBed roofFt2 thermCost).panelsToInstall
        = (calculate numApt avgBed roofFt2 thermCost).maxPanels ∧
    (calculate numApt avgBed roofFt2 thermCost).panelsToInstall
        < (calculate numApt avgBed roofFt2 thermCost).neededPanels ∧
    (calculate numApt avgBed roofFt2 thermCost).storageGallons
        = (calculate numApt avgBed roofFt2 thermCost).maxPanels * 50 ∧
    (calculate numApt avgBed roofFt2 thermCost).annualDollarSaved
        = (((calculate numApt avgBed roofFt2 thermCost).maxPanels : ℚ)
            * 40000 * 365 / 100000) * thermCost := by
  have hp : (calculate numApt avgBed roofFt2 thermCost).panelsToInstall
      = (calculate numApt avgBed roofFt2 thermCost).maxPanels := by
    rw [install_eq_min]; exact min_eq_right (le_of_lt h)
  refine ⟨hp, ?_, ?_, ?_⟩
  · rw [hp]; exact h
  · rw [storage_eq, hp]
  · rw [saved_eq, hp]

/-- C5 at scenario B (10 apartments, 2 bedrooms, 300 square feet, 2.50 per
therm): 12 panels needed, 9 fit, 9 installed, 450 gallons, 3285 saved. -/
theorem C5_scenarioB :
    (calculate 10 2 300 2.5).neededPanels = 12 ∧
    (calculate 10 2 300 2.5).maxPanels = 9 ∧
    (calculate 10 2 300 2.5).panelsToInstall = 9 ∧
    (calculate 10 2 300 2.5).storageGallons = 450 ∧
    (calculate 10 2 300 2.5).annualDollarSaved = 3285 := by
  have h := C5_roof_capping 10 2 300 2.5
    (by rw [needed_scenarioA, max_roof300]; decide)
  rw [max_roof300] at h
  refine ⟨needed_scenarioA _ _, max_roof300 _ _ _, h.1, ?_, ?_⟩
  · rw [h.2.2.1]; rfl
  · rw [h.2.2.2]; norm_num

/-! ## C6: monotonicity in the apartment count -/

/-- C6: with positive bedrooms, roof area and gas price held fixed, a larger
apartment count never lowers the daily gallons, the baseline gas cost or the
number of panels needed. -/
theorem C6_monotone_apartments (a a' : ℤ) (avgBed roofFt2 thermCost : ℚ)
    (hb : 0 < avgBed) (hr : 0 < roofFt2) (hc : 0 < thermCost) (h : a ≤ a') :
    (calculate a avgBed roofFt2 thermCost).dailyGal
        ≤ (calculate a' avgBed roofFt2 thermCost).dailyGal ∧
    (calculate a avgBed roofFt2 thermCost).annualGasCost
        ≤ (calculate a' avgBed roofFt2 thermCost).annualGasCost ∧
    (calculate a avgBed roofFt2 thermCost).neededPanels
        ≤ (calculate a' avgBed roofFt2 thermCost).neededPanels := by
  have _hr := hr
  have hq : (a : ℚ) ≤ (a' : ℚ) := by exact_mod_cast h
  have hab : (a : ℚ) * avgBed ≤ (a' : ℚ) * avgBed :=
    mul_le_mul_of_nonneg_right hq (le_of_lt hb)
  simp only [calculate, WATER_USE_PER_BED, BTU_PER_GAL, SOLAR_FRACTION, PANEL_BTU_PER_DAY,
    THERM_BTU, BOILER_EFF]
  refine ⟨by linarith, ?_, ?_⟩
  · apply mul_le_mul_of_nonneg_right _ (le_of_lt hc)
    norm_num
    linarith
  · apply Int.ceil_mono
    norm_num
    linarith

/-- C6 from 10 to 20 apartments in scenario A. -/
theorem C6_monotone_apartments_witness :
    (calculate 10 2 1000 2.5).dailyGal ≤ (calculate 20 2 1000 2.5).dailyGal ∧
    (calculate 10 2 1000 2.5).annualGasCost ≤ (calculate 20 2 1000 2.5).annualGasCost ∧
    (calculate 10 2 1000 2.5).neededPanels ≤ (calculate 20 2 1000 2.5).neededPanels :=
  C6_monotone_apartments 10 20 2 1000 2.5 (by norm_num) (by norm_num) (by norm_num)
    (by decide)

/-! ## C7: rounding policy -/

/-- C7: `neededPanels` is the least integer `n` with
`n * 40000 ≥ solarBTUperDay`, `maxPanels` is the greatest integer `n` with
`n * 32 ≤ roofFt2`, and on exact multiples neither is off by one. -/
theorem C7_rounding_policy (numApt : ℤ) (avgBed roofFt2 thermCost : ℚ) :
    ((calculate numApt avgBed roofFt2 thermCost).solarBTUperDay
        ≤ ((calculate numApt avgBed roofFt2 thermCost).neededPanels : ℚ) * 40000 ∧
      ∀ n : ℤ, (calculate numApt avgBed roofFt2 thermCost).solarBTUperDay ≤ (n : ℚ) * 40000 →
        (calculate numApt avgBed roofFt2 thermCost).neededPanels ≤ n) ∧
    (((calculate numApt avgBed roofFt2 thermCost).maxPanels : ℚ) * 32 ≤ roofFt2 ∧
      ∀ n : ℤ, (n : ℚ) * 32 ≤ roofFt2 →
        n ≤ (calculate numApt avgBed roofFt2 thermCost).maxPanels) ∧
    (∀ k : ℤ, (calculate numApt avgBed roofFt2 thermCost).solarBTUperDay = (k : ℚ) * 40000 →
        (calculate numApt avgBed roofFt2 thermCost).neededPanels = k) ∧
    (∀ k : ℤ, roofFt2 = (k : ℚ) * 32 →
        (calculate numApt avgBed roofFt2 thermCost).maxPanels = k) := by
  have hn : (calculate numApt avgBed roofFt2 thermCost).neededPanels
      = Int.ceil ((calculate numApt avgBed roofFt2 thermCost).solarBTUperDay / 40000) := rfl
  have hm : (calculate numApt avgBed roofFt2 thermCost).maxPanels
      = Int.floor (roofFt2 / 32) := rfl
  rw [hn, hm]
  generalize (calculate numApt avgBed roofFt2 thermCost).solarBTUperDay = s
  refine ⟨⟨?_, ?_⟩, ⟨?_, ?_⟩, ?_, ?_⟩
  · have := Int.le_ceil (s / 40000)
    rw [div_le_iff₀ (by norm_num)] at this
    exact this
  · intro n h
    apply Int.ceil_le.mpr
    rw [div_le_iff₀ (by norm_num)]
    exact h
  · have := Int.floor_le (roofFt2 / 32)
    rw [le_div_iff₀ (by norm_num)] at this
    exact this
  · intro n h
    apply Int.le_floor.mpr
    rw [le_div_iff₀ (by norm_num)]
    exact h
  · intro k h
    rw [h, mul_div_assoc, div_self (by norm_num), mul_one, Int.ceil_intCast]
  · intro k h
    rw [h, mul_div_assoc, div_self (by norm_num), mul_one, Int.floor_intCast]

/-- C7 at an input on both boundaries: one apartment of 10000/5831 bedrooms
has a solar load of exactly 40000 BTU and needs 1 panel; 64 square feet take
2 panels. -/
theorem C7_rounding_policy_witness :
    (calculate 1 (10000 / 5831) 64 2.5).solarBTUperDay = ((1 : ℤ) : ℚ) * 40000 ∧
    (64 : ℚ) = ((2 : ℤ) : ℚ) * 32 ∧
    (calculate 1 (10000 / 5831) 64 2.5).neededPanels = 1 ∧
    (calculate 1 (10000 / 5831) 64 2.5).maxPanels = 2 :=
  have hs : (calculate 1 (10000 / 5831) 64 2.5).solarBTUperDay = ((1 : ℤ) : ℚ) * 40000 := by
    norm_num [calculate, WATER_USE_PER_BED, BTU_PER_GAL, SOLAR_FRACTION]
  have hr : (64 : ℚ) = ((2 : ℤ) : ℚ) * 32 := by norm_num
  ⟨hs, hr, (C7_rounding_policy 1 (10000 / 5831) 64 2.5).2.2.1 1 hs,
    (C7_rounding_policy 1 (10000 / 5831) 64 2.5).2.2.2 2 hr⟩

/-! ## C8: non-negativity -/

/-- C8: when the four inputs are non-negative, the nine gallon, BTU, therm
and currency quantities of the result are non-negative, and so are the three
panel counts. -/
theorem C8_nonneg (numApt : ℤ) (avgBed roofFt2 thermCost : ℚ)
    (ha : 0 ≤ numApt) (hb : 0 ≤ avgBed) (hr : 0 ≤ roofFt2) (hc : 0 ≤ thermCost) :
    0 ≤ (calculate numApt avgBed roofFt2 thermCost).dailyGal ∧
    0 ≤ (calculate numApt avgBed roofFt2 thermCost).dailyBTU ∧
    0 ≤ (calculate numApt avgBed roofFt2 thermCost).boilerGasInput ∧
    0 ≤ (calculate numApt avgBed roofFt2 thermCost).dailyTherms ∧
    0 ≤ (calculate numApt avgBed roofFt2 thermCost).annualTherms ∧
    0 ≤ (calculate numApt avgBed roofFt2 thermCost).annualGasCost ∧
    0 ≤ (calculate numApt avgBed roofFt2 thermCost).solarBTUperDay ∧
    0 ≤ (calculate numApt avgBed roofFt2 thermCost).storageGallons ∧
    0 ≤ (calculate numApt avgBed roofFt2 thermCost).annualDollarSaved ∧
    0 ≤ (calculate numApt avgBed roofFt2 thermCost).neededPanels ∧
    0 ≤ (calculate numApt avgBed roofFt2 thermCost).maxPanels ∧
    0 ≤ (calculate numApt avgBed roofFt2 thermCost).panelsToInstall := by
  have haq : (0 : ℚ) ≤ (numApt : ℚ) := by exact_mod_cast ha
  have hab : (0 : ℚ) ≤ (numApt : ℚ) * avgBed := mul_nonneg haq hb
  have hn : 0 ≤ (calculate numApt avgBed roofFt2 thermCost).neededPanels := by
    simp only [calculate, WATER_USE_PER_BED, BTU_PER_GAL, SOLAR_FRACTION, PANEL_BTU_PER_DAY]
    apply Int.ceil_nonneg
    norm_num
    linarith
  have hm : 0 ≤ (calculate numApt avgBed roofFt2 thermCost).maxPanels := by
    simp only [calculate, PANEL_AREA_FT2]
    apply Int.floor_nonneg.mpr
    linarith
  have hp : 0 ≤ (calculate numApt avgBed roofFt2 thermCost).panelsToInstall := by
    rw [install_eq_min]; exact le_min hn hm
  have hpq : (0 : ℚ) ≤ ((calculate numApt avgBed roofFt2 thermCost).panelsToInstall : ℚ) := by
    exact_mod_cast hp
  refine ⟨?_, ?_, ?_, ?_, ?_, ?_, ?_, ?_, ?_, hn, hm, hp⟩
  · simp only [calculate, WATER_USE_PER_BED]; linarith
  · simp only [calculate, WATER_USE_PER_BED, BTU_PER_GAL]; linarith
  · simp only [calculate, WATER_USE_PER_BED, BTU_PER_GAL, BOILER_EFF]; norm_num; linarith
  · simp only [calculate, WATER_USE_PER_BED, BTU_PER_GAL, BOILER_EFF, THERM_BTU]
    norm_num; linarith
  · simp only [calculate, WATER_USE_PER_BED, BTU_PER_GAL, BOILER_EFF, THERM_BTU]
    norm_num; linarith
  · simp only [calculate, WATER_USE_PER_BED, BTU_PER_GAL, BOILER_EFF, THERM_BTU]
    apply mul_nonneg _ hc
    norm_num; linarith
  · simp only [calculate, WATER_USE_PER_BED, BTU_PER_GAL, SOLAR_FRACTION]; norm_num; linarith
  · rw [storage_eq]; omega
  · rw [saved_eq]
    apply mul_nonneg _ hc
    linarith

/-- C8 at scenario A. -/
theorem C8_nonneg_witness :
    0 ≤ (calculate 10 2 1000 2.5).dailyGal ∧
    0 ≤ (calculate 10 2 1000 2.5).dailyBTU ∧
    0 ≤ (calculate 10 2 1000 2.5).boilerGasInput ∧
    0 ≤ (calculate 10 2 1000 2.5).dailyTherms ∧
    0 ≤ (calculate 10 2 1000 2.5).annualTherms ∧
    0 ≤ (calculate 10 2 1000 2.5).annualGasCost ∧
    0 ≤ (calculate 10 2 1000 2.5).solarBTUperDay ∧
    0 ≤ (calculate 10 2 1000 2.5).storageGallons ∧
    0 ≤ (calculate 10 2 1000 2.5).annualDollarSaved ∧
    0 ≤ (calculate 10 2 1000 2.5).neededPanels ∧
    0 ≤ (calculate 10 2 1000 2.5).maxPanels ∧
    0 ≤ (calculate 10 2 1000 2.5).panelsToInstall :=
  C8_nonneg 10 2 1000 2.5 (by decide) (by norm_num) (by norm_num) (by norm_num)

/-- The number of panels that fit occupies no more than the roof. -/
theorem max_mul_area_le (numApt : ℤ) (avgBed roofFt2 thermCost : ℚ) :
    ((calculate numApt avgBed roofFt2 thermCost).maxPanels : ℚ) * 32 ≤ roofFt2 := by
  have := Int.floor_le (roofFt2 / 32)
  rw [le_div_iff₀ (by norm_num)] at this
  exact this

/-! ## C9: the installed panels fit on the roof -/

/-- C9: for every input the installed panels occupy no more than the usable
roof area, `panelsToInstall * 32 ≤ roofFt2`, and hence the storage is at most
`50 * roofFt2 / 32` gallons. -/
theorem C9_installed_fit_roof (numApt : ℤ) (avgBed roofFt2 thermCost : ℚ) :
    ((calculate numApt avgBed roofFt2 thermCost).panelsToInstall : ℚ) * 32 ≤ roofFt2 ∧
    ((calculate numApt avgBed roofFt2 thermCost).storageGallons : ℚ)
        ≤ 50 * roofFt2 / 32 := by
  have hle : ((calculate numApt avgBed roofFt2 thermCost).panelsToInstall : ℚ)
      ≤ ((calculate numApt avgBed roofFt2 thermCost).maxPanels : ℚ) := by
    rw [install_eq_min]; exact_mod_cast min_le_right _ _
  have hmax := max_mul_area_le numApt avgBed roofFt2 thermCost
  have h32 : ((calculate numApt avgBed roofFt2 thermCost).panelsToInstall : ℚ) * 32
      ≤ roofFt2 := by linarith
  refine ⟨h32, ?_⟩
  rw [storage_eq]
  push_cast
  linarith

/-! ## C10: the installed array against the 70% target -/

/-- C10: when the roof is not binding (`neededPanels ≤ maxPanels`) the
installed array meets the solar target with less than one panel to spare,
`solarBTUperDay ≤ panelsToInstall * 40000 < solarBTUperDay + 40000`; when the
roof is binding (`maxPanels < neededPanels`) the array falls short,
`panelsToInstall * 40000 < solarBTUperDay`. -/
theorem C10_target_coverage (numApt : ℤ) (avgBed roofFt2 thermCost : ℚ) :
    ((calculate numApt avgBed roofFt2 thermCost).neededPanels
        ≤ (calculate numApt avgBed roofFt2 thermCost).maxPanels →
      (calculate numApt avgBed roofFt2 thermCost).solarBTUperDay
          ≤ ((calculate numApt avgBed roofFt2 thermCost).panelsToInstall : ℚ) * 40000 ∧
      ((calculate numApt avgBed roofFt2 thermCost).panelsToInstall : ℚ) * 40000
          < (calculate numApt avgBed roofFt2 thermCost).solarBTUperDay + 40000) ∧
    ((calculate numApt avgBed roofFt2 thermCost).maxPanels
        < (calculate numApt avgBed roofFt2 thermCost).neededPanels →
      ((calculate numApt avgBed roofFt2 thermCost).panelsToInstall : ℚ) * 40000
          < (calculate numApt avgBed roofFt2 thermCost).solarBTUperDay) := by
  have hn : (calculate numApt avgBed roofFt2 thermCost).neededPanels
      = Int.ceil ((calculate numApt avgBed roofFt2 thermCost).solarBTUperDay / 40000) := rfl
  rw [install_eq_min, hn]
  generalize (calculate numApt avgBed roofFt2 thermCost).solarBTUperDay = s
  generalize (calculate numApt avgBed roofFt2 thermCost).maxPanels = m
  constructor
  · intro h
    rw [min_eq_left h]
    constructor
    · have := Int.le_ceil (s / 40000)
      rw [div_le_iff₀ (by norm_num)] at this
      exact this
    · have := Int.ceil_lt_add_one (s / 40000)
      rw [← sub_lt_iff_lt_add, lt_div_iff₀ (by norm_num)] at this
      linarith
  · intro h
    rw [min_eq_right (le_of_lt h)]
    have := Int.lt_ceil.mp h
    rw [lt_div_iff₀ (by norm_num)] at this
    exact this

/-- C10 at scenario A (roof not binding: 466480 ≤ 12 * 40000 < 506480) and at
scenario B (roof binding: 9 * 40000 < 466480). -/
theorem C10_target_coverage_witness :
    ((calculate 10 2 1000 2.5).solarBTUperDay
        ≤ ((calculate 10 2 1000 2.5).panelsToInstall : ℚ) * 40000 ∧
      ((calculate 10 2 1000 2.5).panelsToInstall : ℚ) * 40000
        < (calculate 10 2 1000 2.5).solarBTUperDay + 40000) ∧
    ((calculate 10 2 300 2.5).panelsToInstall : ℚ) * 40000
        < (calculate 10 2 300 2.5).solarBTUperDay :=
  ⟨(C10_target_coverage 10 2 1000 2.5).1
      (by rw [needed_scenarioA, max_roof1000]; decide),
   (C10_target_coverage 10 2 300 2.5).2
      (by rw [needed_scenarioA, max_roof300]; decide)⟩

end SolarThermal
